import Mathlib

/-!
AppReceiptValidator: the PKCS#7 union accessors and the OpenSSL configuration header

Embedded sources:

* `OpenSSL/pkcs7_union_accessors.c` (declarations in `pkcs7_union_accessors.h`):
  eight functions `pkcs7_d_char .. pkcs7_d_other`, each `return ptr->d.<member>;`.
* `OpenSSL/openssl.xcframework/.../Headers/opensslconf.h`: an `#if/#elif/#else #error`
  chain that selects one per-architecture configuration header.

The receipt validator that the specification describes is not among the sources; its
domain verification (spec §4.4) is modelled from the specification, with the digest
function as a parameter.

C pointers are addresses (`Nat`, `0` is `NULL`) tagged with the pointee type.  Memory is
an explicit heap that is threaded through every call; dereferencing an address that holds
no object is the fault `invalidDereference`.
-/

namespace AppReceiptValidator

/-! ## C memory model -/

/-- An address; `NULL` is address `0`. -/
abbrev Addr := Nat

/-- The null pointer. -/
def NULL : Addr := 0

/-- The pointee types that occur in the accessors' signatures. -/
inductive CType where
  | char
  | ASN1_OCTET_STRING
  | PKCS7_SIGNED
  | PKCS7_ENVELOPE
  | PKCS7_SIGN_ENVELOPE
  | PKCS7_DIGEST
  | PKCS7_ENCRYPT
  | ASN1_TYPE
  deriving DecidableEq, Repr

/-- A typed C pointer `T *`: an address together with its static pointee type. -/
structure Ptr (T : CType) where
  addr : Addr
  deriving DecidableEq, Repr

/-- An object identifier, as its sequence of arcs. -/
abbrev OID := List Nat

/-- The OID `1.2.840.113549.1.7.1` (data). -/
def OID_data : OID := [1, 2, 840, 113549, 1, 7, 1]
/-- The OID `1.2.840.113549.1.7.2` (signedData). -/
def OID_signedData : OID := [1, 2, 840, 113549, 1, 7, 2]
/-- The OID `1.2.840.113549.1.7.3` (envelopedData). -/
def OID_envelopedData : OID := [1, 2, 840, 113549, 1, 7, 3]
/-- The OID `1.2.840.113549.1.7.4` (signedAndEnvelopedData). -/
def OID_signedAndEnvelopedData : OID := [1, 2, 840, 113549, 1, 7, 4]
/-- The OID `1.2.840.113549.1.7.5` (digestedData). -/
def OID_digestData : OID := [1, 2, 840, 113549, 1, 7, 5]
/-- The OID `1.2.840.113549.1.7.6` (encryptedData). -/
def OID_encryptedData : OID := [1, 2, 840, 113549, 1, 7, 6]

/-- Modelled from the spec: the declaration of the content union `d` of `PKCS7` lives in
OpenSSL's `pkcs7.h`, which is not among the sources.  It is a C union of eight pointer
members (`ptr`, `data`, `sign`, `enveloped`, `signed_and_enveloped`, `digest`,
`encrypted`, `other`); a union has one storage location that all members share, here one
pointer-sized cell. -/
structure PKCS7_union where
  storage : Addr
  deriving DecidableEq, Repr

namespace PKCS7_union

/-- Read of member `ptr` (`char *`). -/
def ptr (u : PKCS7_union) : Ptr CType.char := ⟨u.storage⟩
/-- Read of member `data` (`ASN1_OCTET_STRING *`). -/
def data (u : PKCS7_union) : Ptr CType.ASN1_OCTET_STRING := ⟨u.storage⟩
/-- Read of member `sign` (`PKCS7_SIGNED *`). -/
def sign (u : PKCS7_union) : Ptr CType.PKCS7_SIGNED := ⟨u.storage⟩
/-- Read of member `enveloped` (`PKCS7_ENVELOPE *`). -/
def enveloped (u : PKCS7_union) : Ptr CType.PKCS7_ENVELOPE := ⟨u.storage⟩
/-- Read of member `signed_and_enveloped` (`PKCS7_SIGN_ENVELOPE *`). -/
def signed_and_enveloped (u : PKCS7_union) : Ptr CType.PKCS7_SIGN_ENVELOPE := ⟨u.storage⟩
/-- Read of member `digest` (`PKCS7_DIGEST *`). -/
def digest (u : PKCS7_union) : Ptr CType.PKCS7_DIGEST := ⟨u.storage⟩
/-- Read of member `encrypted` (`PKCS7_ENCRYPT *`). -/
def encrypted (u : PKCS7_union) : Ptr CType.PKCS7_ENCRYPT := ⟨u.storage⟩
/-- Read of member `other` (`ASN1_TYPE *`). -/
def other (u : PKCS7_union) : Ptr CType.ASN1_TYPE := ⟨u.storage⟩

/-- Assignment `u.<member> = x` for a member of pointee type `T`: the address of `x` is
written to the shared storage. -/
def store {T : CType} (x : Ptr T) : PKCS7_union := ⟨x.addr⟩

end PKCS7_union

/-- Modelled from the spec: the declaration of `PKCS7` (`struct pkcs7_st` of OpenSSL's
`pkcs7.h`) is not among the sources.  It holds the content type (`type`, an object
identifier), the content union `d`, and the bookkeeping fields `asn1`, `length`, `state`
and `detached`. -/
structure PKCS7 where
  asn1 : Addr
  length : Int
  state : Int
  detached : Int
  type : OID
  d : PKCS7_union
  deriving DecidableEq, Repr

/-- The heap: the `PKCS7` objects that are alive, by address. -/
abbrev Heap := List (Addr × PKCS7)

/-- The outcome of a dereference that does not hit a live object. -/
inductive Fault where
  | invalidDereference
  deriving DecidableEq, Repr

/-- A C computation over the heap: it either faults or returns a value and the heap it
leaves behind. -/
abbrev CM (α : Type) := Heap → Except Fault (α × Heap)

/-- The lvalue-to-rvalue read `*ptr` for `PKCS7 *ptr`: a fault at `NULL` and at any
address without a live object; otherwise the object, with the heap untouched. -/
def deref (ptr : Addr) : CM PKCS7 := fun h =>
  if ptr = NULL then Except.error Fault.invalidDereference
  else
    match h.lookup ptr with
    | none => Except.error Fault.invalidDereference
    | some p => Except.ok (p, h)

/-- Sequencing of a dereference with a pure projection of the object read. -/
def CM.map {α β : Type} (f : α → β) (m : CM α) : CM β := fun h =>
  match m h with
  | Except.error e => Except.error e
  | Except.ok (a, h') => Except.ok (f a, h')

/-! ## `pkcs7_union_accessors.c` -/

/-- Source: `inline char *pkcs7_d_char(PKCS7 *ptr) { return ptr->d.ptr; }` -/
def pkcs7_d_char (ptr : Addr) : CM (Ptr CType.char) :=
  CM.map (fun p => p.d.ptr) (deref ptr)

/-- Source: `inline ASN1_OCTET_STRING *pkcs7_d_data(PKCS7 *ptr) { return ptr->d.data; }` -/
def pkcs7_d_data (ptr : Addr) : CM (Ptr CType.ASN1_OCTET_STRING) :=
  CM.map (fun p => p.d.data) (deref ptr)

/-- Source: `inline PKCS7_SIGNED *pkcs7_d_sign(PKCS7 *ptr) { return ptr->d.sign; }` -/
def pkcs7_d_sign (ptr : Addr) : CM (Ptr CType.PKCS7_SIGNED) :=
  CM.map (fun p => p.d.sign) (deref ptr)

/-- Source: `inline PKCS7_ENVELOPE *pkcs7_d_enveloped(PKCS7 *ptr) { return ptr->d.enveloped; }` -/
def pkcs7_d_enveloped (ptr : Addr) : CM (Ptr CType.PKCS7_ENVELOPE) :=
  CM.map (fun p => p.d.enveloped) (deref ptr)

/-- Source: `inline PKCS7_SIGN_ENVELOPE *pkcs7_d_signed_and_enveloped(PKCS7 *ptr)
{ return ptr->d.signed_and_enveloped; }` -/
def pkcs7_d_signed_and_enveloped (ptr : Addr) : CM (Ptr CType.PKCS7_SIGN_ENVELOPE) :=
  CM.map (fun p => p.d.signed_and_enveloped) (deref ptr)

/-- Source: `inline PKCS7_DIGEST *pkcs7_d_digest(PKCS7 *ptr) { return ptr->d.digest; }` -/
def pkcs7_d_digest (ptr : Addr) : CM (Ptr CType.PKCS7_DIGEST) :=
  CM.map (fun p => p.d.digest) (deref ptr)

/-- Source: `inline PKCS7_ENCRYPT *pkcs7_d_encrypted(PKCS7 *ptr) { return ptr->d.encrypted; }` -/
def pkcs7_d_encrypted (ptr : Addr) : CM (Ptr CType.PKCS7_ENCRYPT) :=
  CM.map (fun p => p.d.encrypted) (deref ptr)

/-- Source: `inline ASN1_TYPE *pkcs7_d_other(PKCS7 *ptr) { return ptr->d.other; }` -/
def pkcs7_d_other (ptr : Addr) : CM (Ptr CType.ASN1_TYPE) :=
  CM.map (fun p => p.d.other) (deref ptr)

/-- A pointer `ptr` points to the live structure `p` in heap `h`. -/
def PointsTo (h : Heap) (ptr : Addr) (p : PKCS7) : Prop :=
  ptr ≠ NULL ∧ h.lookup ptr = some p

instance (h : Heap) (ptr : Addr) (p : PKCS7) : Decidable (PointsTo h ptr p) := by
  unfold PointsTo; infer_instance

/-- A sample structure: envelopedData content whose union holds address `4096`. -/
def sampleEnveloped : PKCS7 :=
  { asn1 := 0, length := 0, state := 0, detached := 0,
    type := OID_envelopedData, d := ⟨4096⟩ }

/-- A sample heap with `sampleEnveloped` alive at address `16`. -/
def sampleHeap : Heap := [(16, sampleEnveloped)]

/-- The value a computation returns from heap `h`, or its fault. -/
def CM.value {α : Type} (m : CM α) (h : Heap) : Except Fault α :=
  match m h with
  | Except.error e => Except.error e
  | Except.ok (a, _) => Except.ok a

/-- The heap a computation leaves behind when started in `h`; `none` when it faults. -/
def CM.heapAfter {α : Type} (m : CM α) (h : Heap) : Option Heap :=
  match m h with
  | Except.error _ => none
  | Except.ok (_, h') => some h'

/-! ## The sum-type model of the PKCS#7 content (spec, Design Notes) -/

/-- The spec's sum type over `{Data, Signed, Enveloped, SignedAndEnveloped, Digest,
Encrypted, Other}`; every variant carries its payload. -/
inductive Content where
  | Data (x : Ptr CType.ASN1_OCTET_STRING)
  | Signed (x : Ptr CType.PKCS7_SIGNED)
  | Enveloped (x : Ptr CType.PKCS7_ENVELOPE)
  | SignedAndEnveloped (x : Ptr CType.PKCS7_SIGN_ENVELOPE)
  | Digest (x : Ptr CType.PKCS7_DIGEST)
  | Encrypted (x : Ptr CType.PKCS7_ENCRYPT)
  | Other (x : Ptr CType.ASN1_TYPE)
  deriving DecidableEq, Repr

namespace Content

/-- Pattern matching that selects `Data`. -/
def matchData : Content → Option (Ptr CType.ASN1_OCTET_STRING)
  | Data x => some x
  | _ => none
/-- Pattern matching that selects `Signed`. -/
def matchSigned : Content → Option (Ptr CType.PKCS7_SIGNED)
  | Signed x => some x
  | _ => none
/-- Pattern matching that selects `Enveloped`. -/
def matchEnveloped : Content → Option (Ptr CType.PKCS7_ENVELOPE)
  | Enveloped x => some x
  | _ => none
/-- Pattern matching that selects `SignedAndEnveloped`. -/
def matchSignedAndEnveloped : Content → Option (Ptr CType.PKCS7_SIGN_ENVELOPE)
  | SignedAndEnveloped x => some x
  | _ => none
/-- Pattern matching that selects `Digest`. -/
def matchDigest : Content → Option (Ptr CType.PKCS7_DIGEST)
  | Digest x => some x
  | _ => none
/-- Pattern matching that selects `Encrypted`. -/
def matchEncrypted : Content → Option (Ptr CType.PKCS7_ENCRYPT)
  | Encrypted x => some x
  | _ => none
/-- Pattern matching that selects `Other`. -/
def matchOther : Content → Option (Ptr CType.ASN1_TYPE)
  | Other x => some x
  | _ => none

end Content

/-- The six content types that have a variant of their own. -/
def knownContentTypes : List OID :=
  [OID_data, OID_signedData, OID_envelopedData, OID_signedAndEnvelopedData,
   OID_digestData, OID_encryptedData]

/-- The structure `p` holds the content `c`: its content type is the one of `c`'s variant
(any type without a variant of its own for `Other`) and the payload was assigned to the
union through the member of that variant. -/
def PKCS7.Holds (p : PKCS7) : Content → Prop
  | Content.Data x => p.type = OID_data ∧ p.d = PKCS7_union.store x
  | Content.Signed x => p.type = OID_signedData ∧ p.d = PKCS7_union.store x
  | Content.Enveloped x => p.type = OID_envelopedData ∧ p.d = PKCS7_union.store x
  | Content.SignedAndEnveloped x =>
      p.type = OID_signedAndEnvelopedData ∧ p.d = PKCS7_union.store x
  | Content.Digest x => p.type = OID_digestData ∧ p.d = PKCS7_union.store x
  | Content.Encrypted x => p.type = OID_encryptedData ∧ p.d = PKCS7_union.store x
  | Content.Other x => p.type ∉ knownContentTypes ∧ p.d = PKCS7_union.store x

instance (p : PKCS7) (c : Content) : Decidable (p.Holds c) := by
  cases c <;> unfold PKCS7.Holds <;> infer_instance

/-- A sample structure: signedData content whose union holds address `8192`. -/
def sampleSigned : PKCS7 :=
  { asn1 := 0, length := 0, state := 0, detached := 0,
    type := OID_signedData, d := ⟨8192⟩ }

/-- A sample heap with `sampleSigned` alive at address `32`. -/
def sampleSignedHeap : Heap := [(32, sampleSigned)]

/-! ## `openssl.framework/Headers/opensslconf.h` -/

/-- The preprocessor state the dispatch reads: the `TARGET_OS_*` and `TARGET_CPU_*` macros
of `<TargetConditionals.h>` (`true` when the macro expands to a nonzero value; a macro
that is not defined counts as `0` inside `#if`) and whether the compiler defines
`__ARM_ARCH_7S__`. -/
structure Target where
  TARGET_OS_IOS : Bool
  TARGET_OS_SIMULATOR : Bool
  TARGET_OS_EMBEDDED : Bool
  TARGET_OS_MACCATALYST : Bool
  TARGET_OS_TV : Bool
  TARGET_OS_OSX : Bool
  TARGET_OS_WATCHOS : Bool
  TARGET_CPU_X86_64 : Bool
  TARGET_CPU_ARM64 : Bool
  TARGET_CPU_ARM : Bool
  TARGET_CPU_ARMV7K : Bool
  TARGET_CPU_ARM64_32 : Bool
  TARGET_CPU_X86 : Bool
  defined__ARM_ARCH_7S__ : Bool
  deriving DecidableEq, Repr

/-- What preprocessing the header ends in: one `#include`d file, or the `#error`. -/
inductive Preprocessed where
  | included (header : String)
  | error (message : String)
  deriving DecidableEq, Repr

/-- The text of the `#error` directive on line 36. -/
def unableToDetermineTarget : String :=
  "Unable to determine target or target not included in OpenSSL build"

/-- Lines 11-37 of `opensslconf.h`: the `#if / #elif / #else` chain, branch by branch. -/
def opensslconf (t : Target) : Preprocessed :=
  if t.TARGET_OS_IOS && t.TARGET_OS_SIMULATOR && t.TARGET_CPU_X86_64 then
    Preprocessed.included "opensslconf_ios_x86_64.h"
  else if t.TARGET_OS_IOS && t.TARGET_OS_SIMULATOR && t.TARGET_CPU_ARM64 then
    Preprocessed.included "opensslconf_ios_arm64.h"
  else if t.TARGET_OS_IOS && t.TARGET_OS_EMBEDDED && t.TARGET_CPU_ARM
      && !t.defined__ARM_ARCH_7S__ then
    Preprocessed.included "opensslconf_ios_armv7.h"
  else if t.TARGET_OS_IOS && t.TARGET_OS_EMBEDDED && t.TARGET_CPU_ARM64 then
    Preprocessed.included "opensslconf_ios_arm64.h"
  else if (t.TARGET_OS_MACCATALYST || (t.TARGET_OS_IOS && t.TARGET_OS_SIMULATOR))
      && t.TARGET_CPU_X86_64 then
    Preprocessed.included "opensslconf_catalyst_x86_64.h"
  else if t.TARGET_OS_TV && t.TARGET_OS_SIMULATOR && t.TARGET_CPU_X86_64 then
    Preprocessed.included "opensslconf_tvos_x86_64.h"
  else if t.TARGET_OS_TV && t.TARGET_OS_EMBEDDED && t.TARGET_CPU_ARM64 then
    Preprocessed.included "opensslconf_tvos_arm64.h"
  else if t.TARGET_OS_OSX && t.TARGET_CPU_X86_64 then
    Preprocessed.included "opensslconf_macos_x86_64.h"
  else if t.TARGET_OS_OSX && t.TARGET_CPU_ARM64 then
    Preprocessed.included "opensslconf_macos_arm64.h"
  else if t.TARGET_OS_WATCHOS && t.TARGET_OS_EMBEDDED && t.TARGET_CPU_ARMV7K then
    Preprocessed.included "opensslconf_watchos_armv7k.h"
  else if t.TARGET_OS_WATCHOS && t.TARGET_OS_EMBEDDED && t.TARGET_CPU_ARM64_32 then
    Preprocessed.included "opensslconf_watchos_arm64_32.h"
  else if (t.TARGET_OS_SIMULATOR && t.TARGET_CPU_X86) || t.TARGET_OS_EMBEDDED then
    Preprocessed.included "opensslconf_watchos_i386.h"
  else
    Preprocessed.error unableToDetermineTarget

/-- The twelve conditions of the chain in source order (lines 11, 13, .., 33), each with
the header its branch includes: the table that "first match" is read against. -/
def conditions : List ((Target → Bool) × String) :=
  [ (fun t => t.TARGET_OS_IOS && t.TARGET_OS_SIMULATOR && t.TARGET_CPU_X86_64,
      "opensslconf_ios_x86_64.h"),
    (fun t => t.TARGET_OS_IOS && t.TARGET_OS_SIMULATOR && t.TARGET_CPU_ARM64,
      "opensslconf_ios_arm64.h"),
    (fun t => t.TARGET_OS_IOS && t.TARGET_OS_EMBEDDED && t.TARGET_CPU_ARM
        && !t.defined__ARM_ARCH_7S__,
      "opensslconf_ios_armv7.h"),
    (fun t => t.TARGET_OS_IOS && t.TARGET_OS_EMBEDDED && t.TARGET_CPU_ARM64,
      "opensslconf_ios_arm64.h"),
    (fun t => (t.TARGET_OS_MACCATALYST || (t.TARGET_OS_IOS && t.TARGET_OS_SIMULATOR))
        && t.TARGET_CPU_X86_64,
      "opensslconf_catalyst_x86_64.h"),
    (fun t => t.TARGET_OS_TV && t.TARGET_OS_SIMULATOR && t.TARGET_CPU_X86_64,
      "opensslconf_tvos_x86_64.h"),
    (fun t => t.TARGET_OS_TV && t.TARGET_OS_EMBEDDED && t.TARGET_CPU_ARM64,
      "opensslconf_tvos_arm64.h"),
    (fun t => t.TARGET_OS_OSX && t.TARGET_CPU_X86_64, "opensslconf_macos_x86_64.h"),
    (fun t => t.TARGET_OS_OSX && t.TARGET_CPU_ARM64, "opensslconf_macos_arm64.h"),
    (fun t => t.TARGET_OS_WATCHOS && t.TARGET_OS_EMBEDDED && t.TARGET_CPU_ARMV7K,
      "opensslconf_watchos_armv7k.h"),
    (fun t => t.TARGET_OS_WATCHOS && t.TARGET_OS_EMBEDDED && t.TARGET_CPU_ARM64_32,
      "opensslconf_watchos_arm64_32.h"),
    (fun t => (t.TARGET_OS_SIMULATOR && t.TARGET_CPU_X86) || t.TARGET_OS_EMBEDDED,
      "opensslconf_watchos_i386.h") ]

/-- First match over a table of conditions: the header of the first entry whose condition
holds for `t`, the `#error` when no entry's condition holds. -/
def firstMatch (table : List ((Target → Bool) × String)) (t : Target) : Preprocessed :=
  match table.find? (fun c => c.1 t) with
  | some c => Preprocessed.included c.2
  | none => Preprocessed.error unableToDetermineTarget

/-- The target with every macro `0` and `__ARM_ARCH_7S__` not defined. -/
def noTarget : Target :=
  ⟨false, false, false, false, false, false, false, false, false, false, false, false,
   false, false⟩

/-- An iOS device build for `armv7s`: `TARGET_OS_IOS`, `TARGET_OS_EMBEDDED` and
`TARGET_CPU_ARM` are `1`, `__ARM_ARCH_7S__` is defined. -/
def iosDeviceArmv7s : Target :=
  { noTarget with TARGET_OS_IOS := true, TARGET_OS_EMBEDDED := true,
                  TARGET_CPU_ARM := true, defined__ARM_ARCH_7S__ := true }

/-- An iOS simulator build for `x86_64`. -/
def iosSimulatorX86_64 : Target :=
  { noTarget with TARGET_OS_IOS := true, TARGET_OS_SIMULATOR := true,
                  TARGET_CPU_X86_64 := true }

/-- A watchOS simulator build for `x86_64`. -/
def watchosSimulatorX86_64 : Target :=
  { noTarget with TARGET_OS_WATCHOS := true, TARGET_OS_SIMULATOR := true,
                  TARGET_CPU_X86_64 := true }

/-- The target is a watchOS simulator on an i386 CPU. -/
def Target.isWatchosSimulatorI386 (t : Target) : Bool :=
  t.TARGET_OS_WATCHOS && t.TARGET_OS_SIMULATOR && t.TARGET_CPU_X86

/-! ## The receipt validator's domain verification (spec §4.4) -/

/-- A byte string. -/
abbrev Bytes := List (Fin 256)

/-- Modelled from the spec: the validator is not among the sources; this is the flat error
taxonomy of spec §7. -/
inductive ValidationError where
  | MalformedInput
  | UnsupportedContentType
  | UntrustedRoot
  | BrokenChain
  | Expired
  | NotYetValid
  | BadSignature
  | DigestMismatch
  | BundleMismatch
  | VersionMismatch
  | HashMismatch
  | MissingField
  deriving DecidableEq, Repr

/-- Modelled from the spec: the validator is not among the sources; this is the typed
receipt the decoder hands to the domain checks (spec §3), with the mandatory attributes
present: bundle identifier (type 2, decoded and as stored), application version (type 3),
opaque value (type 4), SHA-1 hash (type 5), and the optional expiration date (type 21, as
a timestamp in seconds). -/
structure Receipt where
  bundleIdentifier : Bytes
  bundleIdentifierRawDERBytes : Bytes
  applicationVersion : Bytes
  opaqueValue : Bytes
  sha1Hash : Bytes
  expirationDate : Option Int
  deriving DecidableEq, Repr

/-- Modelled from the spec: the validator is not among the sources; this is the
expectation struct of spec §6, with the fields the domain checks read. -/
structure Expectations where
  bundleIdentifier : Bytes
  bundleVersion : Option Bytes
  deviceIdentifier : Bytes
  now : Int
  deriving DecidableEq, Repr

/-- Modelled from the spec: the validator is not among the sources; step 1 of the domain
verification: the bundle identifier equals the expected one, else `BundleMismatch`. -/
def bundleCheck (e : Expectations) (r : Receipt) : Except ValidationError Unit :=
  if r.bundleIdentifier = e.bundleIdentifier then Except.ok ()
  else Except.error ValidationError.BundleMismatch

/-- Modelled from the spec: the validator is not among the sources; step 2: when an
expected version is supplied it must match exactly, else `VersionMismatch`; skipped when
none is supplied. -/
def versionCheck (e : Expectations) (r : Receipt) : Except ValidationError Unit :=
  match e.bundleVersion with
  | none => Except.ok ()
  | some v =>
    if r.applicationVersion = v then Except.ok ()
    else Except.error ValidationError.VersionMismatch

/-- Modelled from the spec: the validator is not among the sources; step 3, the hash
check: `SHA1(deviceGUID || opaqueValue || bundleIdentifierRawDERBytes)` is compared to the
stored hash (type 5), `HashMismatch` when they differ.  The digest function `SHA1` is a
parameter. -/
def hashCheck (SHA1 : Bytes → Bytes) (deviceGUID : Bytes) (r : Receipt) :
    Except ValidationError Unit :=
  if SHA1 (deviceGUID ++ r.opaqueValue ++ r.bundleIdentifierRawDERBytes) = r.sha1Hash then
    Except.ok ()
  else Except.error ValidationError.HashMismatch

/-- Modelled from the spec: the validator is not among the sources; step 4: a receipt with
an expiration date fails with `Expired` when `now` is past it; receipts without one do not
expire. -/
def expirationCheck (e : Expectations) (r : Receipt) : Except ValidationError Unit :=
  match r.expirationDate with
  | none => Except.ok ()
  | some expiration =>
    if e.now > expiration then Except.error ValidationError.Expired else Except.ok ()

/-- Modelled from the spec: the validator is not among the sources; the domain
verification runs the four checks in the order listed, and the first error is terminal. -/
def domainVerification (SHA1 : Bytes → Bytes) (e : Expectations) (r : Receipt) :
    Except ValidationError Unit :=
  match bundleCheck e r with
  | Except.error err => Except.error err
  | Except.ok () =>
    match versionCheck e r with
    | Except.error err => Except.error err
    | Except.ok () =>
      match hashCheck SHA1 e.deviceIdentifier r with
      | Except.error err => Except.error err
      | Except.ok () => expirationCheck e r

/-- A stand-in digest for concrete evaluation: the sum of the bytes, as one byte. -/
def byteSum (b : Bytes) : Bytes := [b.foldl (fun acc x => acc + x) 0]

/-- A sample receipt whose stored hash is `byteSum` of GUID `[1, 2]`, opaque value `[3]`
and bundle identifier bytes `[4, 5]`. -/
def sampleReceipt : Receipt :=
  { bundleIdentifier := [4, 5], bundleIdentifierRawDERBytes := [4, 5],
    applicationVersion := [1], opaqueValue := [3], sha1Hash := [15],
    expirationDate := none }

/-- Expectations that match `sampleReceipt` on the device with GUID `[1, 2]`. -/
def sampleExpectations : Expectations :=
  { bundleIdentifier := [4, 5], bundleVersion := none, deviceIdentifier := [1, 2], now := 0 }

/-- The same expectations on another device: GUID `[1, 3]`. -/
def wrongDeviceExpectations : Expectations :=
  { sampleExpectations with deviceIdentifier := [1, 3] }

/-! ## Basic facts about the memory model -/

theorem deref_of_pointsTo {h : Heap} {ptr : Addr} {p : PKCS7} (hp : PointsTo h ptr p) :
    deref ptr h = Except.ok (p, h) := by
  obtain ⟨hn, hl⟩ := hp
  simp [deref, hn, hl]

theorem map_deref_of_pointsTo {β : Type} (f : PKCS7 → β) {h : Heap} {ptr : Addr} {p : PKCS7}
    (hp : PointsTo h ptr p) : CM.map f (deref ptr) h = Except.ok (f p, h) := by
  simp [CM.map, deref_of_pointsTo hp]

theorem value_map_deref {β : Type} (f : PKCS7 → β) {h : Heap} {ptr : Addr} {p : PKCS7}
    (hp : PointsTo h ptr p) : CM.value (CM.map f (deref ptr)) h = Except.ok (f p) := by
  simp [CM.value, map_deref_of_pointsTo f hp]

theorem heapAfter_map_deref {β : Type} (f : PKCS7 → β) {h : Heap} {ptr : Addr} {p : PKCS7}
    (hp : PointsTo h ptr p) : CM.heapAfter (CM.map f (deref ptr)) h = some h := by
  simp [CM.heapAfter, map_deref_of_pointsTo f hp]

theorem map_deref_null {β : Type} (f : PKCS7 → β) (h : Heap) :
    CM.map f (deref NULL) h = Except.error Fault.invalidDereference := by
  simp [CM.map, deref]

theorem read_store {T : CType} (x : Ptr T) : (⟨(PKCS7_union.store x).storage⟩ : Ptr T) = x := by
  cases x; rfl

/-! ## The union accessors -/

/-- C1: for every live PKCS7 structure `p` (reached through `ptr`), each of the eight
accessors returns exactly the value of the member of `p.d` it is named for. -/
theorem accessors_return_named_member (h : Heap) (ptr : Addr) (p : PKCS7)
    (hp : PointsTo h ptr p) :
    (pkcs7_d_char ptr).value h = Except.ok p.d.ptr ∧
    (pkcs7_d_data ptr).value h = Except.ok p.d.data ∧
    (pkcs7_d_sign ptr).value h = Except.ok p.d.sign ∧
    (pkcs7_d_enveloped ptr).value h = Except.ok p.d.enveloped ∧
    (pkcs7_d_signed_and_enveloped ptr).value h = Except.ok p.d.signed_and_enveloped ∧
    (pkcs7_d_digest ptr).value h = Except.ok p.d.digest ∧
    (pkcs7_d_encrypted ptr).value h = Except.ok p.d.encrypted ∧
    (pkcs7_d_other ptr).value h = Except.ok p.d.other :=
  ⟨value_map_deref _ hp, value_map_deref _ hp, value_map_deref _ hp, value_map_deref _ hp,
   value_map_deref _ hp, value_map_deref _ hp, value_map_deref _ hp, value_map_deref _ hp⟩

theorem accessors_return_named_member_witness :
    PointsTo sampleHeap 16 sampleEnveloped ∧
    (pkcs7_d_char 16).value sampleHeap = Except.ok ⟨4096⟩ ∧
    (pkcs7_d_enveloped 16).value sampleHeap = Except.ok ⟨4096⟩ :=
  ⟨by decide,
   (accessors_return_named_member sampleHeap 16 sampleEnveloped (by decide)).1,
   (accessors_return_named_member sampleHeap 16 sampleEnveloped (by decide)).2.2.2.1⟩

/-- C2: the accessors agree with the sum-type model: when a live structure holds
variant `V` with payload `x`, the accessor for `V` returns `x`, the payload that pattern
matching on `V` yields. -/
theorem accessors_agree_with_sum_type (h : Heap) (ptr : Addr) (p : PKCS7) (c : Content)
    (hp : PointsTo h ptr p) (hc : p.Holds c) :
    (∀ x, c.matchData = some x → (pkcs7_d_data ptr).value h = Except.ok x) ∧
    (∀ x, c.matchSigned = some x → (pkcs7_d_sign ptr).value h = Except.ok x) ∧
    (∀ x, c.matchEnveloped = some x → (pkcs7_d_enveloped ptr).value h = Except.ok x) ∧
    (∀ x, c.matchSignedAndEnveloped = some x →
      (pkcs7_d_signed_and_enveloped ptr).value h = Except.ok x) ∧
    (∀ x, c.matchDigest = some x → (pkcs7_d_digest ptr).value h = Except.ok x) ∧
    (∀ x, c.matchEncrypted = some x → (pkcs7_d_encrypted ptr).value h = Except.ok x) ∧
    (∀ x, c.matchOther = some x → (pkcs7_d_other ptr).value h = Except.ok x) := by
  refine ⟨?_, ?_, ?_, ?_, ?_, ?_, ?_⟩ <;> intro x hx <;> cases c <;>
    simp only [Content.matchData, Content.matchSigned, Content.matchEnveloped,
      Content.matchSignedAndEnveloped, Content.matchDigest, Content.matchEncrypted,
      Content.matchOther, Option.some.injEq, reduceCtorEq] at hx <;>
    subst hx <;> obtain ⟨_, hd⟩ := hc
  · rw [pkcs7_d_data, value_map_deref _ hp, hd]; exact congrArg _ (read_store _)
  · rw [pkcs7_d_sign, value_map_deref _ hp, hd]; exact congrArg _ (read_store _)
  · rw [pkcs7_d_enveloped, value_map_deref _ hp, hd]; exact congrArg _ (read_store _)
  · rw [pkcs7_d_signed_and_enveloped, value_map_deref _ hp, hd]
    exact congrArg _ (read_store _)
  · rw [pkcs7_d_digest, value_map_deref _ hp, hd]; exact congrArg _ (read_store _)
  · rw [pkcs7_d_encrypted, value_map_deref _ hp, hd]; exact congrArg _ (read_store _)
  · rw [pkcs7_d_other, value_map_deref _ hp, hd]; exact congrArg _ (read_store _)

theorem accessors_agree_with_sum_type_witness :
    PointsTo sampleSignedHeap 32 sampleSigned ∧
    sampleSigned.Holds (Content.Signed ⟨8192⟩) ∧
    (pkcs7_d_sign 32).value sampleSignedHeap = Except.ok ⟨8192⟩ :=
  ⟨by decide, by decide,
   (accessors_agree_with_sum_type sampleSignedHeap 32 sampleSigned (Content.Signed ⟨8192⟩)
      (by decide) (by decide)).2.1 ⟨8192⟩ rfl⟩

/-- C3 (as stated, refuted): `sampleEnveloped` is a live structure whose content type is
envelopedData, not signedData, and `pkcs7_d_sign` succeeds on it with the union's pointer
as a `PKCS7_SIGNED *`; so it is false that `pkcs7_d_sign` never succeeds on a structure
whose content type is not signedData. -/
theorem pkcs7_d_sign_accepts_envelopedData :
    PointsTo sampleHeap 16 sampleEnveloped ∧
    sampleEnveloped.type = OID_envelopedData ∧
    sampleEnveloped.type ≠ OID_signedData ∧
    pkcs7_d_sign 16 sampleHeap = Except.ok (⟨4096⟩, sampleHeap) ∧
    ¬ (∀ (h : Heap) (ptr : Addr) (p : PKCS7), PointsTo h ptr p → p.type ≠ OID_signedData →
        ∀ x, (pkcs7_d_sign ptr).value h ≠ Except.ok x) := by
  refine ⟨by decide, rfl, by decide, rfl, ?_⟩
  intro hall
  exact hall sampleHeap 16 sampleEnveloped (by decide) (by decide) ⟨4096⟩ rfl

/-- C3 (amended): `pkcs7_d_sign` makes no content-type check.  On a live structure whose
content type is signedData and whose union was assigned the payload `x` it returns `x`;
on a live structure of any other content type it is not rejected either: the call
succeeds, leaves the heap as it was, and returns the address stored in the union. -/
theorem pkcs7_d_sign_ignores_content_type (h : Heap) (ptr : Addr) (p : PKCS7)
    (hp : PointsTo h ptr p) :
    (p.type = OID_signedData → ∀ x : Ptr CType.PKCS7_SIGNED, p.d = PKCS7_union.store x →
      pkcs7_d_sign ptr h = Except.ok (x, h)) ∧
    (p.type ≠ OID_signedData →
      ∃ x : Ptr CType.PKCS7_SIGNED, pkcs7_d_sign ptr h = Except.ok (x, h) ∧
        x.addr = p.d.storage) := by
  constructor
  · intro _ x hd
    rw [pkcs7_d_sign, map_deref_of_pointsTo _ hp, hd]
    cases x; rfl
  · intro _
    exact ⟨p.d.sign, map_deref_of_pointsTo _ hp, rfl⟩

theorem pkcs7_d_sign_ignores_content_type_witness :
    PointsTo sampleHeap 16 sampleEnveloped ∧ sampleEnveloped.type ≠ OID_signedData ∧
    ∃ x : Ptr CType.PKCS7_SIGNED, pkcs7_d_sign 16 sampleHeap = Except.ok (x, sampleHeap) ∧
      x.addr = sampleEnveloped.d.storage :=
  ⟨by decide, by decide,
   (pkcs7_d_sign_ignores_content_type sampleHeap 16 sampleEnveloped (by decide)).2
     (by decide)⟩

/-- C4 (as stated, refuted): called with the null pointer, every one of the eight
accessors ends in the failed dereference, not in a returned value or a reported error. -/
theorem accessors_fault_on_null :
    pkcs7_d_char NULL sampleHeap = Except.error Fault.invalidDereference ∧
    pkcs7_d_data NULL sampleHeap = Except.error Fault.invalidDereference ∧
    pkcs7_d_sign NULL sampleHeap = Except.error Fault.invalidDereference ∧
    pkcs7_d_enveloped NULL sampleHeap = Except.error Fault.invalidDereference ∧
    pkcs7_d_signed_and_enveloped NULL sampleHeap = Except.error Fault.invalidDereference ∧
    pkcs7_d_digest NULL sampleHeap = Except.error Fault.invalidDereference ∧
    pkcs7_d_encrypted NULL sampleHeap = Except.error Fault.invalidDereference ∧
    pkcs7_d_other NULL sampleHeap = Except.error Fault.invalidDereference ∧
    ¬ (∀ (h : Heap) (ptr : Addr),
        pkcs7_d_sign ptr h ≠ Except.error Fault.invalidDereference) := by
  refine ⟨rfl, rfl, rfl, rfl, rfl, rfl, rfl, rfl, ?_⟩
  intro hall
  exact hall sampleHeap NULL rfl

/-- C4 (amended): the accessors dereference their argument unguarded.  For every argument
that points to a live PKCS7 structure each of the eight accessors ends in a returned
value; for the null pointer, whatever the heap, each ends in the failed dereference. -/
theorem accessors_return_on_live_structure (h : Heap) (ptr : Addr) :
    ((∃ p, PointsTo h ptr p) →
      (∃ v, (pkcs7_d_char ptr).value h = Except.ok v) ∧
      (∃ v, (pkcs7_d_data ptr).value h = Except.ok v) ∧
      (∃ v, (pkcs7_d_sign ptr).value h = Except.ok v) ∧
      (∃ v, (pkcs7_d_enveloped ptr).value h = Except.ok v) ∧
      (∃ v, (pkcs7_d_signed_and_enveloped ptr).value h = Except.ok v) ∧
      (∃ v, (pkcs7_d_digest ptr).value h = Except.ok v) ∧
      (∃ v, (pkcs7_d_encrypted ptr).value h = Except.ok v) ∧
      (∃ v, (pkcs7_d_other ptr).value h = Except.ok v)) ∧
    (ptr = NULL →
      pkcs7_d_char ptr h = Except.error Fault.invalidDereference ∧
      pkcs7_d_data ptr h = Except.error Fault.invalidDereference ∧
      pkcs7_d_sign ptr h = Except.error Fault.invalidDereference ∧
      pkcs7_d_enveloped ptr h = Except.error Fault.invalidDereference ∧
      pkcs7_d_signed_and_enveloped ptr h = Except.error Fault.invalidDereference ∧
      pkcs7_d_digest ptr h = Except.error Fault.invalidDereference ∧
      pkcs7_d_encrypted ptr h = Except.error Fault.invalidDereference ∧
      pkcs7_d_other ptr h = Except.error Fault.invalidDereference) := by
  constructor
  · rintro ⟨p, hp⟩
    exact ⟨⟨_, value_map_deref _ hp⟩, ⟨_, value_map_deref _ hp⟩, ⟨_, value_map_deref _ hp⟩,
      ⟨_, value_map_deref _ hp⟩, ⟨_, value_map_deref _ hp⟩, ⟨_, value_map_deref _ hp⟩,
      ⟨_, value_map_deref _ hp⟩, ⟨_, value_map_deref _ hp⟩⟩
  · rintro rfl
    exact ⟨map_deref_null _ h, map_deref_null _ h, map_deref_null _ h, map_deref_null _ h,
      map_deref_null _ h, map_deref_null _ h, map_deref_null _ h, map_deref_null _ h⟩

theorem accessors_return_on_live_structure_witness :
    (∃ p, PointsTo sampleHeap 16 p) ∧
    (∃ v, (pkcs7_d_sign 16).value sampleHeap = Except.ok v) ∧
    pkcs7_d_sign NULL [] = Except.error Fault.invalidDereference :=
  ⟨⟨sampleEnveloped, by decide⟩,
   ((accessors_return_on_live_structure sampleHeap 16).1
      ⟨sampleEnveloped, by decide⟩).2.2.1,
   ((accessors_return_on_live_structure [] NULL).2 rfl).2.2.1⟩

/-- C5: the accessors are read-only: called on a live structure `p`, each of the eight
accessors leaves the whole heap as it was, so `ptr` still points to the same `p`, with
its content type, its union `d` and all other fields unchanged. -/
theorem accessors_are_read_only (h : Heap) (ptr : Addr) (p : PKCS7)
    (hp : PointsTo h ptr p) :
    ((pkcs7_d_char ptr).heapAfter h = some h ∧
     (pkcs7_d_data ptr).heapAfter h = some h ∧
     (pkcs7_d_sign ptr).heapAfter h = some h ∧
     (pkcs7_d_enveloped ptr).heapAfter h = some h ∧
     (pkcs7_d_signed_and_enveloped ptr).heapAfter h = some h ∧
     (pkcs7_d_digest ptr).heapAfter h = some h ∧
     (pkcs7_d_encrypted ptr).heapAfter h = some h ∧
     (pkcs7_d_other ptr).heapAfter h = some h) ∧
    ∀ h', (h' ∈ (pkcs7_d_char ptr).heapAfter h ∨ h' ∈ (pkcs7_d_data ptr).heapAfter h ∨
        h' ∈ (pkcs7_d_sign ptr).heapAfter h ∨ h' ∈ (pkcs7_d_enveloped ptr).heapAfter h ∨
        h' ∈ (pkcs7_d_signed_and_enveloped ptr).heapAfter h ∨
        h' ∈ (pkcs7_d_digest ptr).heapAfter h ∨ h' ∈ (pkcs7_d_encrypted ptr).heapAfter h ∨
        h' ∈ (pkcs7_d_other ptr).heapAfter h) → PointsTo h' ptr p := by
  have hall : (pkcs7_d_char ptr).heapAfter h = some h ∧
     (pkcs7_d_data ptr).heapAfter h = some h ∧
     (pkcs7_d_sign ptr).heapAfter h = some h ∧
     (pkcs7_d_enveloped ptr).heapAfter h = some h ∧
     (pkcs7_d_signed_and_enveloped ptr).heapAfter h = some h ∧
     (pkcs7_d_digest ptr).heapAfter h = some h ∧
     (pkcs7_d_encrypted ptr).heapAfter h = some h ∧
     (pkcs7_d_other ptr).heapAfter h = some h :=
    ⟨heapAfter_map_deref _ hp, heapAfter_map_deref _ hp, heapAfter_map_deref _ hp,
     heapAfter_map_deref _ hp, heapAfter_map_deref _ hp, heapAfter_map_deref _ hp,
     heapAfter_map_deref _ hp, heapAfter_map_deref _ hp⟩
  refine ⟨hall, ?_⟩
  obtain ⟨h1, h2, h3, h4, h5, h6, h7, h8⟩ := hall
  intro h' hmem
  rw [h1, h2, h3, h4, h5, h6, h7, h8] at hmem
  simp only [Option.mem_def, Option.some.injEq, or_self] at hmem
  subst hmem
  exact hp

theorem accessors_are_read_only_witness :
    PointsTo sampleHeap 16 sampleEnveloped ∧
    (pkcs7_d_sign 16).heapAfter sampleHeap = some sampleHeap :=
  ⟨by decide, (accessors_are_read_only sampleHeap 16 sampleEnveloped (by decide)).1.2.2.1⟩

/-- C9: on a live structure all eight accessors return one and the same address, the one
in the union's storage, and that address does not depend on the content type field: any
live structure that differs from `p` in its content type only yields the same results. -/
theorem accessors_same_address (h : Heap) (ptr : Addr) (p : PKCS7)
    (hp : PointsTo h ptr p) :
    ∃ a : Addr,
      ((pkcs7_d_char ptr).value h = Except.ok ⟨a⟩ ∧
       (pkcs7_d_data ptr).value h = Except.ok ⟨a⟩ ∧
       (pkcs7_d_sign ptr).value h = Except.ok ⟨a⟩ ∧
       (pkcs7_d_enveloped ptr).value h = Except.ok ⟨a⟩ ∧
       (pkcs7_d_signed_and_enveloped ptr).value h = Except.ok ⟨a⟩ ∧
       (pkcs7_d_digest ptr).value h = Except.ok ⟨a⟩ ∧
       (pkcs7_d_encrypted ptr).value h = Except.ok ⟨a⟩ ∧
       (pkcs7_d_other ptr).value h = Except.ok ⟨a⟩) ∧
      ∀ (t : OID) (h2 : Heap) (ptr2 : Addr), PointsTo h2 ptr2 { p with type := t } →
        ((pkcs7_d_char ptr2).value h2 = Except.ok ⟨a⟩ ∧
         (pkcs7_d_data ptr2).value h2 = Except.ok ⟨a⟩ ∧
         (pkcs7_d_sign ptr2).value h2 = Except.ok ⟨a⟩ ∧
         (pkcs7_d_enveloped ptr2).value h2 = Except.ok ⟨a⟩ ∧
         (pkcs7_d_signed_and_enveloped ptr2).value h2 = Except.ok ⟨a⟩ ∧
         (pkcs7_d_digest ptr2).value h2 = Except.ok ⟨a⟩ ∧
         (pkcs7_d_encrypted ptr2).value h2 = Except.ok ⟨a⟩ ∧
         (pkcs7_d_other ptr2).value h2 = Except.ok ⟨a⟩) := by
  refine ⟨p.d.storage, ?_, ?_⟩
  · exact ⟨value_map_deref _ hp, value_map_deref _ hp, value_map_deref _ hp,
      value_map_deref _ hp, value_map_deref _ hp, value_map_deref _ hp,
      value_map_deref _ hp, value_map_deref _ hp⟩
  · intro t h2 ptr2 hp2
    have e : ∀ {β : Type} (f : PKCS7 → β),
        CM.value (CM.map f (deref ptr2)) h2 = Except.ok (f { p with type := t }) :=
      fun f => value_map_deref f hp2
    exact ⟨e _, e _, e _, e _, e _, e _, e _, e _⟩

theorem accessors_same_address_witness :
    PointsTo sampleHeap 16 sampleEnveloped ∧
    ∃ a : Addr,
      ((pkcs7_d_char 16).value sampleHeap = Except.ok ⟨a⟩ ∧
       (pkcs7_d_data 16).value sampleHeap = Except.ok ⟨a⟩ ∧
       (pkcs7_d_sign 16).value sampleHeap = Except.ok ⟨a⟩ ∧
       (pkcs7_d_enveloped 16).value sampleHeap = Except.ok ⟨a⟩ ∧
       (pkcs7_d_signed_and_enveloped 16).value sampleHeap = Except.ok ⟨a⟩ ∧
       (pkcs7_d_digest 16).value sampleHeap = Except.ok ⟨a⟩ ∧
       (pkcs7_d_encrypted 16).value sampleHeap = Except.ok ⟨a⟩ ∧
       (pkcs7_d_other 16).value sampleHeap = Except.ok ⟨a⟩) :=
  ⟨by decide,
   (accessors_same_address sampleHeap 16 sampleEnveloped (by decide)).imp
     (fun _ hx => hx.1)⟩

/-! ## The header dispatch -/

theorem find?_eq_of_first {α : Type} (q : α → Bool) :
    ∀ (l : List α) (i : Nat) (hi : i < l.length), q (l.get ⟨i, hi⟩) = true →
      (∀ (j : Nat) (hj : j < i), q (l.get ⟨j, hj.trans hi⟩) = false) →
      l.find? q = some (l.get ⟨i, hi⟩)
  | [], i, hi, _, _ => absurd hi (Nat.not_lt_zero i)
  | a :: l, 0, _, h0, _ => by
      simp only [List.get_eq_getElem, List.getElem_cons_zero] at h0
      simp [List.find?, h0]
  | a :: l, i + 1, hi, hq, hbefore => by
      have ha : q a = false := by
        simpa using hbefore 0 (Nat.succ_pos i)
      have hi2 : i < l.length := Nat.lt_of_succ_lt_succ hi
      have hrec := find?_eq_of_first q l i hi2 (by simpa using hq)
        (fun j hj => by simpa using hbefore (j + 1) (Nat.succ_lt_succ hj))
      simp only [List.find?, ha]
      simpa using hrec

theorem firstMatch_nil (t : Target) :
    firstMatch [] t = Preprocessed.error unableToDetermineTarget := rfl

theorem firstMatch_cons (c : Target → Bool) (hdr : String)
    (rest : List ((Target → Bool) × String)) (t : Target) :
    firstMatch ((c, hdr) :: rest) t
      = if c t = true then Preprocessed.included hdr else firstMatch rest t := by
  unfold firstMatch
  cases hc : c t <;> simp [List.find?, hc]

theorem opensslconf_eq_firstMatch (t : Target) : opensslconf t = firstMatch conditions t := by
  unfold opensslconf conditions
  simp only [firstMatch_cons, firstMatch_nil]

theorem firstMatch_eq_error_iff (table : List ((Target → Bool) × String)) (t : Target) :
    firstMatch table t = Preprocessed.error unableToDetermineTarget
      ↔ ∀ c ∈ table, c.1 t = false := by
  induction table with
  | nil => simp [firstMatch_nil]
  | cons c rest ih =>
    obtain ⟨c, hdr⟩ := c
    rw [firstMatch_cons]
    cases hc : c t <;> simp [hc, ih]

theorem firstMatch_eq_of_first (table : List ((Target → Bool) × String)) (t : Target)
    (i : Nat) (hi : i < table.length) (hq : (table.get ⟨i, hi⟩).1 t = true)
    (hbefore : ∀ (j : Nat) (hj : j < i), (table.get ⟨j, hj.trans hi⟩).1 t = false) :
    firstMatch table t = Preprocessed.included (table.get ⟨i, hi⟩).2 := by
  unfold firstMatch
  rw [find?_eq_of_first (fun c => c.1 t) table i hi hq hbefore]


/-- C8: the dispatch is first match over the twelve conditions in source order: the build
stops with the `#error` exactly when none of the twelve holds; otherwise one header is
included, the one of the first condition that holds.  In particular an iOS-simulator
x86_64 target, which also satisfies the Catalyst condition, gets
`opensslconf_ios_x86_64.h` and not `opensslconf_catalyst_x86_64.h`. -/
theorem opensslconf_first_match (t : Target) :
    conditions.length = 12 ∧
    opensslconf t = firstMatch conditions t ∧
    (opensslconf t = Preprocessed.error unableToDetermineTarget
      ↔ ∀ c ∈ conditions, c.1 t = false) ∧
    ((∃ c ∈ conditions, c.1 t = true) ↔ ∃ hdr, opensslconf t = Preprocessed.included hdr) ∧
    (∀ (i : Nat) (hi : i < conditions.length), (conditions.get ⟨i, hi⟩).1 t = true →
      (∀ (j : Nat) (hj : j < i), (conditions.get ⟨j, hj.trans hi⟩).1 t = false) →
      opensslconf t = Preprocessed.included (conditions.get ⟨i, hi⟩).2) ∧
    (t.TARGET_OS_IOS = true → t.TARGET_OS_SIMULATOR = true → t.TARGET_CPU_X86_64 = true →
      ((t.TARGET_OS_MACCATALYST || (t.TARGET_OS_IOS && t.TARGET_OS_SIMULATOR))
        && t.TARGET_CPU_X86_64) = true ∧
      opensslconf t = Preprocessed.included "opensslconf_ios_x86_64.h" ∧
      opensslconf t ≠ Preprocessed.included "opensslconf_catalyst_x86_64.h") := by
  have herr := firstMatch_eq_error_iff conditions t
  rw [← opensslconf_eq_firstMatch] at herr
  refine ⟨rfl, opensslconf_eq_firstMatch t, herr, ?_, ?_, ?_⟩
  · constructor
    · rintro ⟨c, hc, hct⟩
      cases hres : opensslconf t with
      | included hdr => exact ⟨hdr, rfl⟩
      | error msg =>
        have hmsg : msg = unableToDetermineTarget := by
          rw [opensslconf_eq_firstMatch] at hres
          unfold firstMatch at hres
          split at hres
          · exact absurd hres (by simp)
          · exact (Preprocessed.error.inj hres).symm
        subst hmsg
        have := herr.1 hres c hc
        rw [hct] at this
        exact absurd this (by simp)
    · rintro ⟨hdr, hres⟩
      by_contra hnone
      have hall : ∀ c ∈ conditions, c.1 t = false := by
        intro c hc
        cases hct : c.1 t
        · rfl
        · exact absurd ⟨c, hc, hct⟩ hnone
      rw [herr.2 hall] at hres
      exact absurd hres (by simp)
  · intro i hi hq hbefore
    rw [opensslconf_eq_firstMatch]
    exact firstMatch_eq_of_first conditions t i hi hq hbefore
  · intro h1 h2 h3
    refine ⟨by simp [h1, h2, h3], ?_, ?_⟩ <;> simp [opensslconf, h1, h2, h3]

theorem opensslconf_first_match_witness :
    (conditions.get ⟨11, by decide⟩).1 iosDeviceArmv7s = true ∧
    (∀ (j : Nat) (hj : j < 11),
      (conditions.get ⟨j, hj.trans (by decide)⟩).1 iosDeviceArmv7s = false) ∧
    opensslconf iosDeviceArmv7s = Preprocessed.included "opensslconf_watchos_i386.h" ∧
    opensslconf iosSimulatorX86_64 = Preprocessed.included "opensslconf_ios_x86_64.h" ∧
    opensslconf watchosSimulatorX86_64 = Preprocessed.error unableToDetermineTarget :=
  ⟨by decide, by decide,
   (opensslconf_first_match iosDeviceArmv7s).2.2.2.2.1 11 (by decide) (by decide)
     (by decide),
   ((opensslconf_first_match iosSimulatorX86_64).2.2.2.2.2 rfl rfl rfl).2.1,
   (opensslconf_first_match watchosSimulatorX86_64).2.2.1.2 (by decide)⟩

/-- C6 (evaluation at the failing input): for an iOS device build for armv7s, which is
neither a watchOS target nor a simulator nor an x86 CPU, the header that is included is
`opensslconf_watchos_i386.h`; so it is false that this header is included for watchOS
i386 simulator targets only. -/
theorem opensslconf_ios_armv7s_gets_watchos_i386 :
    iosDeviceArmv7s.TARGET_OS_IOS = true ∧ iosDeviceArmv7s.TARGET_OS_EMBEDDED = true ∧
    iosDeviceArmv7s.TARGET_CPU_ARM = true ∧ iosDeviceArmv7s.defined__ARM_ARCH_7S__ = true ∧
    iosDeviceArmv7s.TARGET_OS_WATCHOS = false ∧ iosDeviceArmv7s.TARGET_OS_SIMULATOR = false ∧
    iosDeviceArmv7s.TARGET_CPU_X86 = false ∧
    opensslconf iosDeviceArmv7s = Preprocessed.included "opensslconf_watchos_i386.h" ∧
    ¬ (∀ t : Target, opensslconf t = Preprocessed.included "opensslconf_watchos_i386.h" →
        t.isWatchosSimulatorI386 = true) := by
  refine ⟨rfl, rfl, rfl, rfl, rfl, rfl, rfl, by decide, ?_⟩
  intro hall
  exact absurd (hall iosDeviceArmv7s (by decide)) (by decide)

/-! ## The hash check of the domain verification -/

/-- C7: for every decoded receipt and every device identifier the hash step passes
exactly when `SHA1(deviceGUID || opaqueValue || bundle identifier bytes)` equals the
stored hash, and fails with `HashMismatch` otherwise; within the domain verification,
once the bundle and version checks have passed, the verdict is `HashMismatch` exactly
when the two differ, and the verification goes on to the expiration check when they
agree. -/
theorem hashCheck_passes_iff (SHA1 : Bytes → Bytes) (deviceGUID : Bytes) (r : Receipt) :
    (hashCheck SHA1 deviceGUID r = Except.ok ()
      ↔ SHA1 (deviceGUID ++ r.opaqueValue ++ r.bundleIdentifierRawDERBytes) = r.sha1Hash) ∧
    (SHA1 (deviceGUID ++ r.opaqueValue ++ r.bundleIdentifierRawDERBytes) ≠ r.sha1Hash →
      hashCheck SHA1 deviceGUID r = Except.error ValidationError.HashMismatch) ∧
    (∀ e : Expectations, e.deviceIdentifier = deviceGUID →
      bundleCheck e r = Except.ok () → versionCheck e r = Except.ok () →
      (domainVerification SHA1 e r = Except.error ValidationError.HashMismatch
        ↔ SHA1 (deviceGUID ++ r.opaqueValue ++ r.bundleIdentifierRawDERBytes) ≠ r.sha1Hash) ∧
      (SHA1 (deviceGUID ++ r.opaqueValue ++ r.bundleIdentifierRawDERBytes) = r.sha1Hash →
        domainVerification SHA1 e r = expirationCheck e r)) := by
  have hpass : ∀ g : Bytes,
      SHA1 (g ++ r.opaqueValue ++ r.bundleIdentifierRawDERBytes) = r.sha1Hash →
      hashCheck SHA1 g r = Except.ok () := fun g hg => if_pos hg
  have hfail : ∀ g : Bytes,
      SHA1 (g ++ r.opaqueValue ++ r.bundleIdentifierRawDERBytes) ≠ r.sha1Hash →
      hashCheck SHA1 g r = Except.error ValidationError.HashMismatch := fun g hg => if_neg hg
  refine ⟨⟨?_, hpass deviceGUID⟩, hfail deviceGUID, ?_⟩
  · intro hok
    by_contra hne
    rw [hfail deviceGUID hne] at hok
    exact absurd hok (by simp)
  · intro e he hb hv
    subst he
    have hstep : domainVerification SHA1 e r
        = match hashCheck SHA1 e.deviceIdentifier r with
          | Except.error err => Except.error err
          | Except.ok () => expirationCheck e r := by
      unfold domainVerification
      rw [hb, hv]
    by_cases heq : SHA1 (e.deviceIdentifier ++ r.opaqueValue ++ r.bundleIdentifierRawDERBytes)
        = r.sha1Hash
    · have hexp : expirationCheck e r ≠ Except.error ValidationError.HashMismatch := by
        unfold expirationCheck
        split
        · simp
        · split <;> simp
      have hdv : domainVerification SHA1 e r = expirationCheck e r := by
        rw [hstep, hpass _ heq]
      refine ⟨⟨fun hres => ?_, fun hne => absurd heq hne⟩, fun _ => hdv⟩
      rw [hdv] at hres
      exact absurd hres hexp
    · have hdv : domainVerification SHA1 e r
          = Except.error ValidationError.HashMismatch := by
        rw [hstep, hfail _ heq]
      exact ⟨⟨fun _ => heq, fun _ => hdv⟩, fun h => absurd h heq⟩

theorem hashCheck_passes_iff_witness :
    byteSum ([1, 3] ++ sampleReceipt.opaqueValue ++ sampleReceipt.bundleIdentifierRawDERBytes)
      ≠ sampleReceipt.sha1Hash ∧
    hashCheck byteSum [1, 3] sampleReceipt = Except.error ValidationError.HashMismatch ∧
    domainVerification byteSum wrongDeviceExpectations sampleReceipt
      = Except.error ValidationError.HashMismatch ∧
    domainVerification byteSum sampleExpectations sampleReceipt
      = expirationCheck sampleExpectations sampleReceipt :=
  ⟨by decide,
   (hashCheck_passes_iff byteSum [1, 3] sampleReceipt).2.1 (by decide),
   ((hashCheck_passes_iff byteSum [1, 3] sampleReceipt).2.2 wrongDeviceExpectations rfl
      rfl rfl).1.2 (by decide),
   ((hashCheck_passes_iff byteSum [1, 2] sampleReceipt).2.2 sampleExpectations rfl
      rfl rfl).2 (by decide)⟩

end AppReceiptValidator
